import Mathlib

/-!
# Verification of the tenant-scoped query/aggregation layer

Shallow embedding of `src/backend/core/schema.py` (a graphene/Django GraphQL
schema over Organization / Project / Task / TaskComment rows), together with
proofs of the spec's testable properties.

The storage layer is modelled as explicit lists of rows with integer primary
keys and foreign keys; Django ORM lookups (`objects.get`, `objects.filter`,
double-underscore joins) become list operations.  Python float arithmetic in
the completion-rate computation is idealised over `ℚ`, with Python 3's
`round(x, 2)` modelled as round-half-to-even at two decimal places.
-/

namespace TenantApp

/-- A row of the Organization table (`slug` is the tenant scoping key). -/
structure Organization where
  id : Nat
  name : String
  slug : String
  contact_email : String
deriving Repr, DecidableEq

/-- A row of the Project table; `organizationId` is the FK to Organization. -/
structure Project where
  id : Nat
  organizationId : Nat
  name : String
  description : String
  status : String
  due_date : Option Nat
deriving Repr, DecidableEq

/-- A row of the Task table; `projectId` is the FK to Project. -/
structure Task where
  id : Nat
  projectId : Nat
  title : String
  description : String
  status : String
  assignee_email : String
  due_date : Option Nat
deriving Repr, DecidableEq

/-- A row of the TaskComment table; `taskId` is the FK to Task. -/
structure TaskComment where
  id : Nat
  taskId : Nat
  content : String
  author_email : String
deriving Repr, DecidableEq

/-- The relational store: one list of rows per table. -/
structure DB where
  orgs : List Organization
  projects : List Project
  tasks : List Task
  comments : List TaskComment
deriving Repr, DecidableEq

/-- FK navigation `project.organization`: look up an organization by pk. -/
def DB.findOrg (db : DB) (oid : Nat) : Option Organization :=
  db.orgs.find? (fun o => o.id == oid)

/-- FK navigation `task.project`: look up a project by pk. -/
def DB.findProject (db : DB) (pid : Nat) : Option Project :=
  db.projects.find? (fun p => p.id == pid)

/-- Django join `organization__slug=s` on a Project row. -/
def projMatchesSlug (db : DB) (p : Project) (s : String) : Bool :=
  match db.findOrg p.organizationId with
  | some o => o.slug == s
  | none => false

/-- Django join `project__organization__slug=s` on a Task row. -/
def taskMatchesSlug (db : DB) (t : Task) (s : String) : Bool :=
  match db.findProject t.projectId with
  | some p => projMatchesSlug db p s
  | none => false

/-- The organization slug of a task's project, when the FK chain resolves:
this is the spec-side notion "T's project's organization slug". -/
def taskOrgSlug (db : DB) (t : Task) : Option String :=
  (db.findProject t.projectId).bind fun p =>
    (db.findOrg p.organizationId).map fun o => o.slug

/-- The organization slug of a project's organization (spec-side notion). -/
def projOrgSlug (db : DB) (p : Project) : Option String :=
  (db.findOrg p.organizationId).map fun o => o.slug

/-- Outcome of Django's `Model.objects.get(...)` when it does not return a
row: `DoesNotExist` (zero matches) or `MultipleObjectsReturned`. -/
inductive GetErr where
  | doesNotExist
  | multipleReturned
deriving Repr, DecidableEq

instance {ε α : Type} [DecidableEq ε] [DecidableEq α] : DecidableEq (Except ε α) :=
  fun x y =>
    match x, y with
    | .ok a, .ok b =>
      if h : a = b then .isTrue (by rw [h])
      else .isFalse (by intro hc; cases hc; exact h rfl)
    | .error a, .error b =>
      if h : a = b then .isTrue (by rw [h])
      else .isFalse (by intro hc; cases hc; exact h rfl)
    | .ok _, .error _ => .isFalse (by intro hc; cases hc)
    | .error _, .ok _ => .isFalse (by intro hc; cases hc)

/-- Embeds `Organization.objects.get(slug=slug)`. -/
def getOrgBySlug (db : DB) (slug : String) : Except GetErr Organization :=
  match db.orgs.filter (fun o => o.slug == slug) with
  | [] => .error .doesNotExist
  | [o] => .ok o
  | _ => .error .multipleReturned

/-- Embeds `Task.objects.get(pk=taskId, project__organization__slug=slug)`. -/
def getTaskScoped (db : DB) (taskId : Nat) (slug : String) : Except GetErr Task :=
  match db.tasks.filter (fun t => t.id == taskId && taskMatchesSlug db t slug) with
  | [] => .error .doesNotExist
  | [t] => .ok t
  | _ => .error .multipleReturned

/-- Embeds `Project.objects.get(pk=id, organization__slug=slug)`. -/
def getProjectScoped (db : DB) (id : Nat) (slug : String) : Except GetErr Project :=
  match db.projects.filter (fun p => p.id == id && projMatchesSlug db p slug) with
  | [] => .error .doesNotExist
  | [p] => .ok p
  | _ => .error .multipleReturned

/-- Embeds `Query.resolve_organization`: return the organization with the given slug
or raise `Exception("Organization not found")`.  `MultipleObjectsReturned`
is not caught by the `except Organization.DoesNotExist` clause and
propagates as a distinct error. -/
def resolve_organization (db : DB) (slug : String) : Except String Organization :=
  match getOrgBySlug db slug with
  | .ok o => .ok o
  | .error .doesNotExist => .error "Organization not found"
  | .error .multipleReturned => .error "MultipleObjectsReturned"

/-- Embeds `Query.resolve_projects`: `Project.objects.filter(organization__slug=organizationSlug)`. -/
def resolve_projects (db : DB) (organizationSlug : String) : List Project :=
  db.projects.filter (fun p => projMatchesSlug db p organizationSlug)

/-- Embeds `Query.resolve_tasks`: filter tasks by
`project__organization__slug=organizationSlug`, then by `project_id=projectId`
when a project id is supplied. -/
def resolve_tasks (db : DB) (organizationSlug : String) (projectId : Option Nat) :
    List Task :=
  let queryset := db.tasks.filter (fun t => taskMatchesSlug db t organizationSlug)
  match projectId with
  | none => queryset
  | some p => queryset.filter (fun t => t.projectId == p)

/-- Embeds `Query.resolve_taskComments`: look up the task scoped to the organization;
on `Task.DoesNotExist` return `[]`; otherwise return the task's comments.
`MultipleObjectsReturned` would propagate uncaught. -/
def resolve_taskComments (db : DB) (taskId : Nat) (organizationSlug : String) :
    Except String (List TaskComment) :=
  match getTaskScoped db taskId organizationSlug with
  | .ok task => .ok (db.comments.filter (fun c => c.taskId == task.id))
  | .error .doesNotExist => .ok []
  | .error .multipleReturned => .error "MultipleObjectsReturned"

/-- Python 3 `round(q)` (round half to even) on a rational. -/
def roundHalfEven (q : ℚ) : ℤ :=
  let f : ℤ := ⌊q⌋
  let r : ℚ := q - (f : ℚ)
  if r < 1/2 then f
  else if 1/2 < r then f + 1
  else if 2 ∣ f then f else f + 1

/-- Python 3 `round(q, 2)`: round half to even at two decimal places. -/
def round2 (q : ℚ) : ℚ :=
  (roundHalfEven (q * 100) : ℚ) / 100

/-- The tasks of a project (`project.tasks.all()`, reverse FK). -/
def projectTasks (db : DB) (p : Project) : List Task :=
  db.tasks.filter (fun t => t.projectId == p.id)

/-- Embeds `ProjectType.resolve_taskCount`: `self.tasks.count()`. -/
def resolve_taskCount (db : DB) (p : Project) : Nat :=
  (projectTasks db p).length

/-- Embeds `ProjectType.resolve_completedTasks`: `self.tasks.filter(status='DONE').count()`. -/
def resolve_completedTasks (db : DB) (p : Project) : Nat :=
  ((projectTasks db p).filter (fun t => t.status == "DONE")).length

/-- Embeds `ProjectType.resolve_completionRate`: `0.0` when the project has no tasks,
else `round((completed / total) * 100, 2)`. -/
def resolve_completionRate (db : DB) (p : Project) : ℚ :=
  let total := (projectTasks db p).length
  if total = 0 then 0
  else
    let completed := ((projectTasks db p).filter (fun t => t.status == "DONE")).length
    round2 (((completed : ℚ) / (total : ℚ)) * 100)

/-- The flat aggregate record returned by `projectStatistics`. -/
structure ProjectStatisticsType where
  totalProjects : Nat
  totalTasks : Nat
  completedTasks : Nat
  activeTasks : Nat
  completionRate : ℚ
deriving Repr, DecidableEq

/-- The project list in scope for `resolve_projectStatistics`: the
organization's projects, optionally narrowed to one project id. -/
def statsProjects (db : DB) (org : Organization) (projectId : Option Nat) :
    List Project :=
  let projects := db.projects.filter (fun p => p.organizationId == org.id)
  match projectId with
  | none => projects
  | some pid => projects.filter (fun p => p.id == pid)

/-- The task list gathered by `resolve_projectStatistics` for an organization
(tasks of each in-scope project, in project order). -/
def statsTasks (db : DB) (org : Organization) (projectId : Option Nat) : List Task :=
  (statsProjects db org projectId).flatMap (fun p => projectTasks db p)

/-- Embeds `Query.resolve_projectStatistics`: look up the organization by slug
(`DoesNotExist` → soft `none`); filter its projects (optionally by project id);
gather all their tasks; count totals, `DONE` and `IN_PROGRESS` tasks; compute
the completion rate with the zero-guard. -/
def resolve_projectStatistics (db : DB) (organizationSlug : String)
    (projectId : Option Nat) : Except String (Option ProjectStatisticsType) :=
  match getOrgBySlug db organizationSlug with
  | .error .doesNotExist => .ok none
  | .error .multipleReturned => .error "MultipleObjectsReturned"
  | .ok organization =>
    let projects := db.projects.filter (fun p => p.organizationId == organization.id)
    let projects := match projectId with
      | none => projects
      | some pid => projects.filter (fun p => p.id == pid)
    let total_projects : Nat := projects.length
    let all_tasks := projects.flatMap (fun p => projectTasks db p)
    let total_tasks : Nat := all_tasks.length
    let completed_tasks : Nat := (all_tasks.filter (fun t => t.status == "DONE")).length
    let active_tasks : Nat := (all_tasks.filter (fun t => t.status == "IN_PROGRESS")).length
    let completion_rate :=
      if 0 < total_tasks then round2 ((completed_tasks : ℚ) / (total_tasks : ℚ) * 100)
      else 0
    .ok (some ⟨total_projects, total_tasks, completed_tasks, active_tasks, completion_rate⟩)

/-- Embeds `CreateOrganization.mutate`: persist a new organization row
unconditionally (uniqueness is the storage layer's concern). -/
def CreateOrganization.mutate (db : DB) (newId : Nat) (name slug contactEmail : String) :
    Except String Organization × DB :=
  let organization : Organization := ⟨newId, name, slug, contactEmail⟩
  (.ok organization, { db with orgs := db.orgs ++ [organization] })

/-- Embeds `CreateProject.mutate`: require the organization to exist by slug
(else `Exception("Organization not found")`, persisting nothing); defaults
supplied by the caller embed Python's `description=""`, `status="ACTIVE"`,
`dueDate=None`. -/
def CreateProject.mutate (db : DB) (newId : Nat) (organizationSlug name : String)
    (description : String := "") (status : String := "ACTIVE")
    (dueDate : Option Nat := none) : Except String Project × DB :=
  match getOrgBySlug db organizationSlug with
  | .error .doesNotExist => (.error "Organization not found", db)
  | .error .multipleReturned => (.error "MultipleObjectsReturned", db)
  | .ok organization =>
    let project : Project := ⟨newId, organization.id, name, description, status, dueDate⟩
    (.ok project, { db with projects := db.projects ++ [project] })

/-- Embeds `CreateTask.mutate`: require the project to exist and belong to the
organization; defaults embed Python's `description=""`, `status="TODO"`,
`assigneeEmail=""`, `dueDate=None`. -/
def CreateTask.mutate (db : DB) (newId : Nat) (projectId : Nat)
    (organizationSlug title : String) (description : String := "")
    (status : String := "TODO") (assigneeEmail : String := "")
    (dueDate : Option Nat := none) : Except String Task × DB :=
  match getProjectScoped db projectId organizationSlug with
  | .error .doesNotExist => (.error "Project not found or does not belong to organization", db)
  | .error .multipleReturned => (.error "MultipleObjectsReturned", db)
  | .ok project =>
    let task : Task := ⟨newId, project.id, title, description, status, assigneeEmail, dueDate⟩
    (.ok task, { db with tasks := db.tasks ++ [task] })

/-- The field-by-field patch of `UpdateTask.mutate`: each `if x is not None:`
guard applied to the fetched task.  A `none` argument means the field was not
supplied and is left unchanged. -/
def applyTaskPatch (task : Task) (title description status assigneeEmail : Option String)
    (dueDate : Option Nat) : Task :=
  let task := match title with | some v => { task with title := v } | none => task
  let task := match description with | some v => { task with description := v } | none => task
  let task := match status with | some v => { task with status := v } | none => task
  let task := match assigneeEmail with | some v => { task with assignee_email := v } | none => task
  let task := match dueDate with | some v => { task with due_date := some v } | none => task
  task

/-- Embeds `task.save()` on an existing row: replace the row with matching pk. -/
def DB.saveTask (db : DB) (task : Task) : DB :=
  { db with tasks := db.tasks.map (fun u => if u.id == task.id then task else u) }

/-- Embeds `UpdateTask.mutate`: fetch the task scoped to the organization (else
`Exception("Task not found or does not belong to organization")`), overwrite
exactly the supplied fields, save. -/
def UpdateTask.mutate (db : DB) (id : Nat) (organizationSlug : String)
    (title : Option String := none) (description : Option String := none)
    (status : Option String := none) (assigneeEmail : Option String := none)
    (dueDate : Option Nat := none) : Except String Task × DB :=
  match getTaskScoped db id organizationSlug with
  | .error .doesNotExist => (.error "Task not found or does not belong to organization", db)
  | .error .multipleReturned => (.error "MultipleObjectsReturned", db)
  | .ok task =>
    let task := applyTaskPatch task title description status assigneeEmail dueDate
    (.ok task, db.saveTask task)

/-- The field-by-field patch of `UpdateProject.mutate`. -/
def applyProjectPatch (project : Project) (name description status : Option String)
    (dueDate : Option Nat) : Project :=
  let project := match name with | some v => { project with name := v } | none => project
  let project := match description with | some v => { project with description := v } | none => project
  let project := match status with | some v => { project with status := v } | none => project
  let project := match dueDate with | some v => { project with due_date := some v } | none => project
  project

/-- Embeds `project.save()` on an existing row: replace the row with matching pk. -/
def DB.saveProject (db : DB) (project : Project) : DB :=
  { db with projects := db.projects.map (fun u => if u.id == project.id then project else u) }

/-- Embeds `UpdateProject.mutate`: fetch the project scoped to the organization,
overwrite exactly the supplied fields, save. -/
def UpdateProject.mutate (db : DB) (id : Nat) (organizationSlug : String)
    (name : Option String := none) (description : Option String := none)
    (status : Option String := none) (dueDate : Option Nat := none) :
    Except String Project × DB :=
  match getProjectScoped db id organizationSlug with
  | .error .doesNotExist => (.error "Project not found or does not belong to organization", db)
  | .error .multipleReturned => (.error "MultipleObjectsReturned", db)
  | .ok project =>
    let project := applyProjectPatch project name description status dueDate
    (.ok project, db.saveProject project)

/-- Embeds `CreateTaskComment.mutate`: require the task to exist and belong to the
organization, then persist the comment row. -/
def CreateTaskComment.mutate (db : DB) (newId : Nat) (taskId : Nat)
    (organizationSlug content authorEmail : String) : Except String TaskComment × DB :=
  match getTaskScoped db taskId organizationSlug with
  | .error .doesNotExist => (.error "Task not found or does not belong to organization", db)
  | .error .multipleReturned => (.error "MultipleObjectsReturned", db)
  | .ok task =>
    let comment : TaskComment := ⟨newId, task.id, content, authorEmail⟩
    (.ok comment, { db with comments := db.comments ++ [comment] })

/-- Modelled from the spec's wording (§3): "Completion rate = completed/total
× 100, rounded to 2 decimal places; defined as 0.0 when total is 0".  Used to
compare the two code paths computing completion rates against the spec. -/
def completionRateSpec (completed total : Nat) : ℚ :=
  if total = 0 then 0 else round2 ((completed : ℚ) / (total : ℚ) * 100)

/-- Storage-layer primary-key constraint: task pks are pairwise distinct. -/
def uniqueTaskIds (db : DB) : Prop :=
  db.tasks.Pairwise (fun a b => a.id ≠ b.id)

/-- Storage-layer primary-key constraint: project pks are pairwise distinct. -/
def uniqueProjectIds (db : DB) : Prop :=
  db.projects.Pairwise (fun a b => a.id ≠ b.id)

/-- Storage-layer unique constraint on `Organization.slug`. -/
def uniqueOrgSlugs (db : DB) : Prop :=
  db.orgs.Pairwise (fun a b => a.slug ≠ b.slug)

instance (db : DB) : Decidable (uniqueTaskIds db) := by
  unfold uniqueTaskIds; infer_instance

instance (db : DB) : Decidable (uniqueProjectIds db) := by
  unfold uniqueProjectIds; infer_instance

instance (db : DB) : Decidable (uniqueOrgSlugs db) := by
  unfold uniqueOrgSlugs; infer_instance

/-! Concrete store used to witness the theorems: the spec's §8 scenario
(organization "acme", project "Launch" with 4 tasks: 2 DONE, 1 IN_PROGRESS,
1 TODO) plus a second tenant "beta" with two projects of its own. -/

/-- The "acme" organization of the spec's scenario. -/
def orgAcme : Organization := ⟨1, "Acme", "acme", "contact@acme.test"⟩

/-- A second tenant, to exercise cross-tenant isolation. -/
def orgBeta : Organization := ⟨2, "Beta", "beta", "contact@beta.test"⟩

/-- Project "Launch" of "acme". -/
def projLaunch : Project := ⟨1, 1, "Launch", "", "ACTIVE", none⟩

/-- A project of tenant "beta". -/
def projBetaMain : Project := ⟨2, 2, "Beta Main", "", "ACTIVE", none⟩

/-- A fully completed project of tenant "beta". -/
def projBetaDone : Project := ⟨3, 2, "Beta Done", "", "ACTIVE", none⟩

/-- The demo tasks: four on "Launch" (2 DONE, 1 IN_PROGRESS, 1 TODO), one
TODO on "Beta Main", one DONE on "Beta Done". -/
def demoTasks : List Task :=
  [⟨1, 1, "t1", "", "DONE", "", none⟩,
   ⟨2, 1, "t2", "", "DONE", "", none⟩,
   ⟨3, 1, "t3", "", "IN_PROGRESS", "", none⟩,
   ⟨4, 1, "t4", "desc4", "TODO", "a@acme.test", some 7⟩,
   ⟨5, 2, "t5", "", "TODO", "", none⟩,
   ⟨6, 3, "t6", "", "DONE", "", none⟩]

/-- The demo store. -/
def dbW : DB :=
  ⟨[orgAcme, orgBeta], [projLaunch, projBetaMain, projBetaDone], demoTasks,
   [⟨1, 1, "first comment", "a@acme.test"⟩]⟩

/-! ### Helper lemmas -/

/-- The Django join test on a project agrees with the spec-side slug notion. -/
lemma projMatchesSlug_iff (db : DB) (p : Project) (s : String) :
    projMatchesSlug db p s = true ↔ projOrgSlug db p = some s := by
  unfold projMatchesSlug projOrgSlug
  cases h : db.findOrg p.organizationId with
  | none => simp
  | some o =>
    simp only [Option.map_some']
    rw [beq_iff_eq]
    exact ⟨fun he => by rw [he], fun he => Option.some_inj.mp he⟩

/-- The Django join test on a task agrees with the spec-side slug notion. -/
lemma taskMatchesSlug_iff (db : DB) (t : Task) (s : String) :
    taskMatchesSlug db t s = true ↔ taskOrgSlug db t = some s := by
  unfold taskMatchesSlug taskOrgSlug
  cases h : db.findProject t.projectId with
  | none => simp
  | some p =>
    simp only [Option.some_bind]
    exact projMatchesSlug_iff db p s

/-- In a list with pairwise-distinct keys, `find?` on the key of a member
returns that member. -/
lemma find_eq_of_pairwise_key {α β : Type} [DecidableEq β] (key : α → β) {l : List α}
    (h : l.Pairwise (fun a b => key a ≠ key b)) {a : α} (ha : a ∈ l) :
    l.find? (fun x => key x == key a) = some a := by
  induction l with
  | nil => cases ha
  | cons b l ih =>
    rw [List.pairwise_cons] at h
    rcases List.mem_cons.mp ha with rfl | hmem
    · simp [List.find?]
    · have hne : key b ≠ key a := h.1 a hmem
      have : (key b == key a) = false := by simpa using hne
      simp only [List.find?, this]
      exact ih h.2 hmem

/-- In a list with pairwise-distinct keys, filtering by a predicate that pins
the key to that of a member `a` satisfying the predicate yields `[a]`. -/
lemma filter_eq_singleton_of_pairwise_key {α β : Type} [DecidableEq β] (key : α → β) {l : List α}
    (h : l.Pairwise (fun a b => key a ≠ key b)) (p : α → Bool)
    {a : α} (hkey : ∀ x ∈ l, p x = true → key x = key a)
    (ha : a ∈ l) (hpa : p a = true) :
    l.filter p = [a] := by
  induction l with
  | nil => cases ha
  | cons b l ih =>
    rw [List.pairwise_cons] at h
    rcases List.mem_cons.mp ha with rfl | hmem
    · have hrest : l.filter p = [] := by
        rw [List.filter_eq_nil_iff]
        intro x hx hpx
        exact absurd (hkey x (List.mem_cons_of_mem _ hx) hpx) (h.1 x hx).symm
      simp [List.filter_cons, hpa, hrest]
    · have hpb : p b = false := by
        rcases hb : p b with _ | _
        · rfl
        · have hba : key b = key a := hkey b (List.mem_cons_self b l) hb
          exact absurd hba (h.1 a hmem)
      rw [List.filter_cons, if_neg (by simp [hpb])]
      exact ih h.2 (fun x hx => hkey x (List.mem_cons_of_mem _ hx)) hmem

/-- Rounding `roundHalfEven` of a nonnegative rational is nonnegative. -/
lemma roundHalfEven_nonneg {q : ℚ} (h : 0 ≤ q) : 0 ≤ roundHalfEven q := by
  unfold roundHalfEven
  have h0 : 0 ≤ ⌊q⌋ := Int.floor_nonneg.mpr h
  dsimp only
  split
  · exact h0
  · split
    · omega
    · split <;> omega

/-- Rounding `roundHalfEven` never exceeds an integer upper bound of its argument. -/
lemma roundHalfEven_le {q : ℚ} {n : ℤ} (h : q ≤ (n : ℚ)) : roundHalfEven q ≤ n := by
  have hfn : ⌊q⌋ ≤ n := by
    have := Int.floor_le_floor h
    simpa using this
  unfold roundHalfEven
  dsimp only
  split
  · exact hfn
  · rename_i hlt
    have h2 : (1 : ℚ)/2 ≤ q - (⌊q⌋ : ℚ) := not_lt.mp hlt
    have hlt2 : ⌊q⌋ < n := by
      by_contra hc
      push_neg at hc
      have hqn : (n : ℚ) ≤ (⌊q⌋ : ℚ) := by exact_mod_cast hc
      have : q - (⌊q⌋ : ℚ) ≤ 0 := by linarith [h.trans hqn]
      linarith
    split
    · omega
    · split <;> omega

/-- Rounding `roundHalfEven` is the identity on integers. -/
lemma roundHalfEven_intCast (n : ℤ) : roundHalfEven (n : ℚ) = n := by
  unfold roundHalfEven
  dsimp only
  rw [Int.floor_intCast]
  norm_num

/-- Rounding `round2` of a nonnegative rational is nonnegative. -/
lemma round2_nonneg {q : ℚ} (h : 0 ≤ q) : 0 ≤ round2 q := by
  unfold round2
  have : (0 : ℤ) ≤ roundHalfEven (q * 100) :=
    roundHalfEven_nonneg (by positivity)
  positivity

/-- Rounding `round2` of a rational at most 100 is at most 100. -/
lemma round2_le_100 {q : ℚ} (h : q ≤ 100) : round2 q ≤ 100 := by
  unfold round2
  have hb : q * 100 ≤ ((10000 : ℤ) : ℚ) := by push_cast; linarith
  have := roundHalfEven_le hb
  have hc : ((roundHalfEven (q * 100)) : ℚ) ≤ 10000 := by exact_mod_cast this
  linarith

/-- Rounding `round2` fixes 100. -/
lemma round2_hundred : round2 100 = 100 := by
  unfold round2
  have h : (100 : ℚ) * 100 = ((10000 : ℤ) : ℚ) := by norm_num
  rw [h, roundHalfEven_intCast]
  norm_num

/-- Unfolding `resolve_tasks` with no project id is the plain organization filter. -/
lemma resolve_tasks_none (db : DB) (s : String) :
    resolve_tasks db s none = db.tasks.filter (fun t => taskMatchesSlug db t s) := rfl

/-- Unfolding `resolve_tasks` with a project id adds the project filter on top. -/
lemma resolve_tasks_some (db : DB) (s : String) (p : Nat) :
    resolve_tasks db s (some p) =
      (db.tasks.filter (fun t => taskMatchesSlug db t s)).filter
        (fun t => t.projectId == p) := rfl

/-- Embedded `Organization.objects.get(slug=s)` raises `DoesNotExist` when no row has
slug `s`. -/
lemma getOrgBySlug_doesNotExist (db : DB) (s : String)
    (h : ∀ o ∈ db.orgs, o.slug ≠ s) :
    getOrgBySlug db s = .error .doesNotExist := by
  unfold getOrgBySlug
  have hf : db.orgs.filter (fun o => o.slug == s) = [] := by
    rw [List.filter_eq_nil_iff]
    intro o ho
    simpa using h o ho
  rw [hf]

/-- Embedded `Organization.objects.get(slug=s)` returns the matching row when slugs are
unique and a row with slug `s` is present. -/
lemma getOrgBySlug_ok (db : DB) (s : String) (huniq : uniqueOrgSlugs db)
    {o : Organization} (ho : o ∈ db.orgs) (hs : o.slug = s) :
    getOrgBySlug db s = .ok o := by
  unfold getOrgBySlug
  have hu : db.orgs.Pairwise (fun a b => a.slug ≠ b.slug) := huniq
  have hf : db.orgs.filter (fun x => x.slug == s) = [o] := by
    subst hs
    exact filter_eq_singleton_of_pairwise_key (fun x => x.slug) hu _
      (fun x _ hx => by simpa using hx) ho (by simp)
  rw [hf]

/-- The scoped task lookup raises `DoesNotExist` when no task both has the pk
and passes the organization join. -/
lemma getTaskScoped_doesNotExist (db : DB) (tid : Nat) (s : String)
    (h : ∀ t ∈ db.tasks, ¬(t.id = tid ∧ taskMatchesSlug db t s = true)) :
    getTaskScoped db tid s = .error .doesNotExist := by
  unfold getTaskScoped
  have hf : db.tasks.filter (fun t => t.id == tid && taskMatchesSlug db t s) = [] := by
    rw [List.filter_eq_nil_iff]
    intro t ht hc
    simp only [Bool.and_eq_true, beq_iff_eq] at hc
    exact h t ht hc
  rw [hf]

/-- The scoped task lookup returns the matching row when task pks are unique
and the row passes the organization join. -/
lemma getTaskScoped_ok (db : DB) (tid : Nat) (s : String) (huniq : uniqueTaskIds db)
    {t : Task} (ht : t ∈ db.tasks) (hid : t.id = tid)
    (hs : taskMatchesSlug db t s = true) :
    getTaskScoped db tid s = .ok t := by
  unfold getTaskScoped
  have hu : db.tasks.Pairwise (fun a b => a.id ≠ b.id) := huniq
  have hf : db.tasks.filter (fun x => x.id == tid && taskMatchesSlug db x s) = [t] := by
    subst hid
    exact filter_eq_singleton_of_pairwise_key (fun x => x.id) hu _
      (fun x _ hx => by
        simp only [Bool.and_eq_true, beq_iff_eq] at hx
        exact hx.1) ht (by simp [hs])
  rw [hf]

/-- The guarded rate expression of `resolve_projectStatistics` agrees with the
spec-side completion-rate formula. -/
lemma rate_eq_spec (c t : Nat) :
    (if 0 < t then round2 ((c : ℚ) / (t : ℚ) * 100) else 0) = completionRateSpec c t := by
  unfold completionRateSpec
  rcases Nat.eq_zero_or_pos t with h0 | hpos
  · subst h0; simp
  · rw [if_pos hpos, if_neg (by omega)]

/-- The spec-side completion rate is nonnegative. -/
lemma completionRateSpec_nonneg (c t : Nat) : 0 ≤ completionRateSpec c t := by
  unfold completionRateSpec
  split
  · norm_num
  · apply round2_nonneg; positivity

/-- The spec-side completion rate is at most 100 when `c ≤ t`. -/
lemma completionRateSpec_le_100 {c t : Nat} (h : c ≤ t) :
    completionRateSpec c t ≤ 100 := by
  unfold completionRateSpec
  split
  · norm_num
  · rename_i ht
    apply round2_le_100
    have ht' : (0 : ℚ) < (t : ℚ) := by
      exact_mod_cast Nat.pos_of_ne_zero ht
    have hc : (c : ℚ) ≤ (t : ℚ) := by exact_mod_cast h
    have h1 : (c : ℚ) / (t : ℚ) ≤ 1 := div_le_one_of_le₀ hc (le_of_lt ht')
    have := mul_le_mul_of_nonneg_right h1 (by norm_num : (0:ℚ) ≤ 100)
    simpa using this

/-- The spec-side completion rate on zero tasks is 0. -/
lemma completionRateSpec_zero (c : Nat) : completionRateSpec c 0 = 0 := by
  simp [completionRateSpec]

/-- The spec-side completion rate of a fully completed nonempty set is 100. -/
lemma completionRateSpec_self {t : Nat} (h : t ≠ 0) :
    completionRateSpec t t = 100 := by
  unfold completionRateSpec
  rw [if_neg h]
  have ht : (t : ℚ) ≠ 0 := Nat.cast_ne_zero.mpr h
  rw [div_self ht, one_mul, round2_hundred]

/-! ### Claim theorems -/

/-- C1: a task appears in `tasks(organizationSlug=s)` (no project id) iff its
project's organization slug equals `s`; with a project id `p` also supplied it
appears iff additionally its project id equals `p`. -/
theorem tasks_membership (db : DB) (s : String) (T : Task) :
    (T ∈ resolve_tasks db s none ↔ T ∈ db.tasks ∧ taskOrgSlug db T = some s) ∧
    (∀ p : Nat, T ∈ resolve_tasks db s (some p) ↔
      T ∈ db.tasks ∧ taskOrgSlug db T = some s ∧ T.projectId = p) := by
  constructor
  · rw [resolve_tasks_none, List.mem_filter]
    exact and_congr_right fun _ => taskMatchesSlug_iff db T s
  · intro p
    rw [resolve_tasks_some, List.mem_filter, List.mem_filter]
    constructor
    · rintro ⟨⟨hmem, hm⟩, hp⟩
      exact ⟨hmem, (taskMatchesSlug_iff db T s).mp hm, by simpa using hp⟩
    · rintro ⟨hmem, hs, hp⟩
      exact ⟨⟨hmem, (taskMatchesSlug_iff db T s).mpr hs⟩, by simpa using hp⟩

/-- C2: when slugs identify `O` uniquely among the stored organizations,
`projects(organizationSlug=O.slug)` returns exactly the projects whose
organization is `O`. -/
theorem projects_scoped (db : DB) (O : Organization)
    (huniq : ∀ o ∈ db.orgs, o.slug = O.slug → o = O) (P : Project) :
    P ∈ resolve_projects db O.slug ↔
      P ∈ db.projects ∧ db.findOrg P.organizationId = some O := by
  unfold resolve_projects
  rw [List.mem_filter]
  apply and_congr_right
  intro _
  rw [projMatchesSlug_iff]
  unfold projOrgSlug
  cases h : db.findOrg P.organizationId with
  | none => simp
  | some o =>
    simp only [Option.map_some', Option.some_inj]
    constructor
    · intro hs
      have ho : o ∈ db.orgs := List.mem_of_find?_eq_some h
      rw [huniq o ho hs]
    · intro he
      rw [he]

/-- C2 witness: instantiated on the demo store at tenant "acme". -/
theorem projects_scoped_witness :
    projLaunch ∈ resolve_projects dbW orgAcme.slug ↔
      projLaunch ∈ dbW.projects ∧ dbW.findOrg projLaunch.organizationId = some orgAcme :=
  projects_scoped dbW orgAcme (by decide) projLaunch

/-- C8: with the storage-layer unique constraint on slugs, the
`organization(slug=s)` query returns the organization with slug `s` when one
exists, and fails with the "Organization not found" error when none does. -/
theorem organization_lookup (db : DB) (s : String) (huniq : uniqueOrgSlugs db) :
    (∀ o ∈ db.orgs, o.slug = s → resolve_organization db s = .ok o) ∧
    ((∀ o ∈ db.orgs, o.slug ≠ s) →
      resolve_organization db s = .error "Organization not found") := by
  constructor
  · intro o ho hs
    unfold resolve_organization
    rw [getOrgBySlug_ok db s huniq ho hs]
  · intro h
    unfold resolve_organization
    rw [getOrgBySlug_doesNotExist db s h]

/-- C8 witness: on the demo store, "acme" is found and "ghost" raises the
NotFound-class error. -/
theorem organization_lookup_witness :
    resolve_organization dbW "acme" = .ok orgAcme ∧
    resolve_organization dbW "ghost" = .error "Organization not found" :=
  ⟨(organization_lookup dbW "acme" (by decide)).1 orgAcme (by decide) (by decide),
   (organization_lookup dbW "ghost" (by decide)).2 (by decide)⟩

/-- C5: when no organization has slug `s`, `projectStatistics` returns the
soft-empty absent result (no error), in contrast to the hard-failing
`organization(slug=s)` lookup. -/
theorem projectStatistics_missing_org_soft (db : DB) (s : String) (pid : Option Nat)
    (h : ∀ o ∈ db.orgs, o.slug ≠ s) :
    resolve_projectStatistics db s pid = .ok none ∧
    resolve_organization db s = .error "Organization not found" := by
  constructor
  · unfold resolve_projectStatistics
    rw [getOrgBySlug_doesNotExist db s h]
  · unfold resolve_organization
    rw [getOrgBySlug_doesNotExist db s h]

/-- C5 witness: statistics for the unknown tenant "ghost" on the demo store. -/
theorem projectStatistics_missing_org_soft_witness :
    resolve_projectStatistics dbW "ghost" none = .ok none ∧
    resolve_organization dbW "ghost" = .error "Organization not found" :=
  projectStatistics_missing_org_soft dbW "ghost" none (by decide)

/-- C6: creating a project under a nonexistent organization slug fails with
the NotFound-class error and leaves the store (in particular the project
table) unchanged. -/
theorem createProject_missing_org (db : DB) (newId : Nat)
    (s name description status : String) (dueDate : Option Nat)
    (h : ∀ o ∈ db.orgs, o.slug ≠ s) :
    CreateProject.mutate db newId s name description status dueDate =
      (.error "Organization not found", db) := by
  unfold CreateProject.mutate
  rw [getOrgBySlug_doesNotExist db s h]

/-- C6 witness: creating a project under "ghost" on the demo store. -/
theorem createProject_missing_org_witness :
    CreateProject.mutate dbW 9 "ghost" "X" "" "ACTIVE" none =
      (.error "Organization not found", dbW) :=
  createProject_missing_org dbW 9 "ghost" "X" "" "ACTIVE" none (by decide)

/-- C10: a project id belonging to a different tenant than the scoping slug
yields no tasks: the organization filter and the project filter are conjoined,
so `tasks(organizationSlug=s, projectId=p.id)` is empty whenever `p`'s
organization slug differs from `s` (project pks unique). -/
theorem tasks_cross_tenant_empty (db : DB) (s : String) (p : Project)
    (hp : p ∈ db.projects) (hslug : projOrgSlug db p ≠ some s)
    (huniq : uniqueProjectIds db) :
    resolve_tasks db s (some p.id) = [] := by
  rw [resolve_tasks_some, List.filter_eq_nil_iff]
  intro t ht hbeq
  rw [List.mem_filter] at ht
  obtain ⟨htmem, hts⟩ := ht
  have hpid : t.projectId = p.id := by simpa using hbeq
  have hslug' := (taskMatchesSlug_iff db t s).mp hts
  unfold taskOrgSlug at hslug'
  have hu : db.projects.Pairwise (fun a b => a.id ≠ b.id) := huniq
  have hfind : db.findProject t.projectId = some p := by
    unfold DB.findProject
    rw [hpid]
    exact find_eq_of_pairwise_key (fun x => x.id) hu hp
  rw [hfind] at hslug'
  simp only [Option.some_bind] at hslug'
  exact hslug hslug'

/-- C10 witness: querying tenant "acme" with the id of Beta's project yields
no tasks on the demo store. -/
theorem tasks_cross_tenant_empty_witness :
    resolve_tasks dbW "acme" (some projBetaMain.id) = [] :=
  tasks_cross_tenant_empty dbW "acme" projBetaMain (by decide) (by decide) (by decide)

/-- C4: `taskComments(taskId, organizationSlug)` returns the empty sequence
(and no error) when no task with that id belongs to the organization, and the
task's comments when the task does exist within the organization (task pks
unique). -/
theorem taskComments_soft (db : DB) (tid : Nat) (s : String) :
    ((∃ o ∈ db.orgs, o.slug = s) →
      (∀ t ∈ db.tasks, ¬(t.id = tid ∧ taskOrgSlug db t = some s)) →
      resolve_taskComments db tid s = .ok []) ∧
    (∀ t : Task, uniqueTaskIds db → t ∈ db.tasks → t.id = tid →
      taskOrgSlug db t = some s →
      resolve_taskComments db tid s =
        .ok (db.comments.filter (fun c => c.taskId == t.id))) := by
  constructor
  · intro _ h
    unfold resolve_taskComments
    rw [getTaskScoped_doesNotExist db tid s
      (fun t ht hc => h t ht ⟨hc.1, (taskMatchesSlug_iff db t s).mp hc.2⟩)]
  · intro t huniq ht hid hs
    unfold resolve_taskComments
    rw [getTaskScoped_ok db tid s huniq ht hid ((taskMatchesSlug_iff db t s).mpr hs)]

/-- C4 witness: on the demo store, task 999 does not exist within "acme" and
yields `[]`, while task 1 yields its comment list. -/
theorem taskComments_soft_witness :
    resolve_taskComments dbW 999 "acme" = .ok [] ∧
    resolve_taskComments dbW 1 "acme" =
      .ok (dbW.comments.filter (fun c => c.taskId == 1)) :=
  ⟨(taskComments_soft dbW 999 "acme").1 (by decide) (by decide),
   (taskComments_soft dbW 1 "acme").2 ⟨1, 1, "t1", "", "DONE", "", none⟩
     (by decide) (by decide) (by decide) (by decide)⟩

/-- C7: updating an existing task scoped to its organization with only the
status supplied rewrites the status alone (title, description, assignee email
and due date keep their prior values); in general a field absent from the
request is left unchanged by the applied patch. -/
theorem updateTask_frame (db : DB) (id : Nat) (s st : String) (t : Task)
    (huniq : uniqueTaskIds db) (ht : t ∈ db.tasks) (hid : t.id = id)
    (hs : taskOrgSlug db t = some s)
    (title description status assigneeEmail : Option String) (dueDate : Option Nat) :
    UpdateTask.mutate db id s none none (some st) none none =
      (.ok { t with status := st }, db.saveTask { t with status := st }) ∧
    (UpdateTask.mutate db id s title description status assigneeEmail dueDate =
      (.ok (applyTaskPatch t title description status assigneeEmail dueDate),
       db.saveTask (applyTaskPatch t title description status assigneeEmail dueDate)) ∧
     (title = none →
       (applyTaskPatch t title description status assigneeEmail dueDate).title = t.title) ∧
     (description = none →
       (applyTaskPatch t title description status assigneeEmail dueDate).description
         = t.description) ∧
     (status = none →
       (applyTaskPatch t title description status assigneeEmail dueDate).status = t.status) ∧
     (assigneeEmail = none →
       (applyTaskPatch t title description status assigneeEmail dueDate).assignee_email
         = t.assignee_email) ∧
     (dueDate = none →
       (applyTaskPatch t title description status assigneeEmail dueDate).due_date
         = t.due_date)) := by
  have hget := getTaskScoped_ok db id s huniq ht hid ((taskMatchesSlug_iff db t s).mpr hs)
  refine ⟨?_, ?_, ?_, ?_, ?_, ?_, ?_⟩
  · unfold UpdateTask.mutate
    rw [hget]
    rfl
  · unfold UpdateTask.mutate
    rw [hget]
  · rintro rfl
    unfold applyTaskPatch
    cases description <;> cases status <;> cases assigneeEmail <;> cases dueDate <;> rfl
  · rintro rfl
    unfold applyTaskPatch
    cases title <;> cases status <;> cases assigneeEmail <;> cases dueDate <;> rfl
  · rintro rfl
    unfold applyTaskPatch
    cases title <;> cases description <;> cases assigneeEmail <;> cases dueDate <;> rfl
  · rintro rfl
    unfold applyTaskPatch
    cases title <;> cases description <;> cases status <;> cases dueDate <;> rfl
  · rintro rfl
    unfold applyTaskPatch
    cases title <;> cases description <;> cases status <;> cases assigneeEmail <;> rfl

/-- C7 witness: on the demo store, setting only the status of task 4 to DONE
keeps its title, description, assignee email and due date. -/
theorem updateTask_frame_witness :
    UpdateTask.mutate dbW 4 "acme" none none (some "DONE") none none =
      (.ok ⟨4, 1, "t4", "desc4", "DONE", "a@acme.test", some 7⟩,
       dbW.saveTask ⟨4, 1, "t4", "desc4", "DONE", "a@acme.test", some 7⟩) :=
  (updateTask_frame dbW 4 "acme" "DONE" ⟨4, 1, "t4", "desc4", "TODO", "a@acme.test", some 7⟩
    (by decide) (by decide) (by decide) (by decide) none none none none none).1

/-- Bounds and extreme values of the spec-side completion rate of a task
list: nonnegative, at most 100, zero on the empty list, and 100 on a
nonempty fully-DONE list. -/
lemma rateSpec_props (l : List Task) :
    0 ≤ completionRateSpec ((l.filter (fun t => t.status == "DONE")).length) l.length ∧
    completionRateSpec ((l.filter (fun t => t.status == "DONE")).length) l.length ≤ 100 ∧
    (l = [] →
      completionRateSpec ((l.filter (fun t => t.status == "DONE")).length) l.length = 0) ∧
    (l ≠ [] → (∀ x ∈ l, x.status = "DONE") →
      completionRateSpec ((l.filter (fun t => t.status == "DONE")).length) l.length = 100) := by
  refine ⟨completionRateSpec_nonneg _ _,
    completionRateSpec_le_100 (List.length_filter_le _ _), ?_, ?_⟩
  · rintro rfl
    simp [completionRateSpec]
  · intro hne hall
    have hf : l.filter (fun t => t.status == "DONE") = l :=
      List.filter_eq_self.mpr (fun a ha => by simpa using hall a ha)
    rw [hf]
    exact completionRateSpec_self (fun h0 => hne (by simpa using h0))

/-- When the organization lookup succeeds, `resolve_projectStatistics` returns
the aggregate record over the in-scope projects and their gathered tasks, with
the completion rate given by the spec-side formula. -/
lemma projectStatistics_ok (db : DB) (s : String) (pid : Option Nat)
    (org : Organization) (h : getOrgBySlug db s = .ok org) :
    resolve_projectStatistics db s pid = .ok (some
      ⟨(statsProjects db org pid).length,
       (statsTasks db org pid).length,
       ((statsTasks db org pid).filter (fun t => t.status == "DONE")).length,
       ((statsTasks db org pid).filter (fun t => t.status == "IN_PROGRESS")).length,
       completionRateSpec
         (((statsTasks db org pid).filter (fun t => t.status == "DONE")).length)
         ((statsTasks db org pid).length)⟩) := by
  unfold resolve_projectStatistics
  rw [h]
  dsimp only
  rw [rate_eq_spec]
  rfl

/-- C3: both completion-rate code paths (the per-project `completionRate`
field and the `projectStatistics` aggregate) compute DONE-count divided by
total count, times 100, rounded to 2 decimal places, and 0.0 on an empty task
set. -/
theorem completionRate_formula (db : DB) :
    (∀ p : Project, resolve_completionRate db p =
      completionRateSpec (resolve_completedTasks db p) (resolve_taskCount db p)) ∧
    (∀ (s : String) (pid : Option Nat) (org : Organization),
      getOrgBySlug db s = .ok org →
      ∃ st, resolve_projectStatistics db s pid = .ok (some st) ∧
        st.totalTasks = (statsTasks db org pid).length ∧
        st.completedTasks =
          ((statsTasks db org pid).filter (fun t => t.status == "DONE")).length ∧
        st.completionRate = completionRateSpec st.completedTasks st.totalTasks) := by
  constructor
  · intro p
    rfl
  · intro s pid org h
    exact ⟨_, projectStatistics_ok db s pid org h, rfl, rfl, rfl⟩

/-- C3 witness: instantiated on the demo store (project "Launch": 2 of 4
tasks DONE) and on the statistics of tenant "acme". -/
theorem completionRate_formula_witness :
    (resolve_completionRate dbW projLaunch =
      completionRateSpec (resolve_completedTasks dbW projLaunch)
        (resolve_taskCount dbW projLaunch)) ∧
    (∃ st, resolve_projectStatistics dbW "acme" none = .ok (some st) ∧
      st.totalTasks = (statsTasks dbW orgAcme none).length ∧
      st.completedTasks =
        ((statsTasks dbW orgAcme none).filter (fun t => t.status == "DONE")).length ∧
      st.completionRate = completionRateSpec st.completedTasks st.totalTasks) :=
  ⟨(completionRate_formula dbW).1 projLaunch,
   (completionRate_formula dbW).2 "acme" none orgAcme (by decide)⟩

/-- C9: every computed completion rate lies in [0, 100]; it is 0.0 on an
empty task set and 100.0 on a nonempty task set whose tasks are all DONE, for
both the per-project field and the statistics aggregate. -/
theorem completionRate_bounds (db : DB) :
    (∀ p : Project,
      0 ≤ resolve_completionRate db p ∧ resolve_completionRate db p ≤ 100 ∧
      (projectTasks db p = [] → resolve_completionRate db p = 0) ∧
      (projectTasks db p ≠ [] → (∀ x ∈ projectTasks db p, x.status = "DONE") →
        resolve_completionRate db p = 100)) ∧
    (∀ (s : String) (pid : Option Nat) (org : Organization),
      getOrgBySlug db s = .ok org →
      ∃ st, resolve_projectStatistics db s pid = .ok (some st) ∧
        0 ≤ st.completionRate ∧ st.completionRate ≤ 100 ∧
        (statsTasks db org pid = [] → st.completionRate = 0) ∧
        (statsTasks db org pid ≠ [] →
          (∀ x ∈ statsTasks db org pid, x.status = "DONE") →
          st.completionRate = 100)) := by
  constructor
  · intro p
    have hrw : resolve_completionRate db p =
        completionRateSpec
          (((projectTasks db p).filter (fun t => t.status == "DONE")).length)
          ((projectTasks db p).length) := rfl
    rw [hrw]
    exact rateSpec_props (projectTasks db p)
  · intro s pid org h
    have hp := rateSpec_props (statsTasks db org pid)
    exact ⟨_, projectStatistics_ok db s pid org h, hp.1, hp.2.1, hp.2.2.1, hp.2.2.2⟩

/-- C9 witness: on the demo store, the fully completed project "Beta Done"
rates 100, "Launch" rates within [0, 100], and the statistics of "beta"
narrowed to project 3 rates 100. -/
theorem completionRate_bounds_witness :
    resolve_completionRate dbW projBetaDone = 100 ∧
    0 ≤ resolve_completionRate dbW projLaunch ∧
    resolve_completionRate dbW projLaunch ≤ 100 ∧
    (∃ st, resolve_projectStatistics dbW "beta" (some 3) = .ok (some st) ∧
      0 ≤ st.completionRate ∧ st.completionRate ≤ 100 ∧
      (statsTasks dbW orgBeta (some 3) = [] → st.completionRate = 0) ∧
      (statsTasks dbW orgBeta (some 3) ≠ [] →
        (∀ x ∈ statsTasks dbW orgBeta (some 3), x.status = "DONE") →
        st.completionRate = 100)) :=
  ⟨((completionRate_bounds dbW).1 projBetaDone).2.2.2 (by decide) (by decide),
   ((completionRate_bounds dbW).1 projLaunch).1,
   ((completionRate_bounds dbW).1 projLaunch).2.1,
   (completionRate_bounds dbW).2 "beta" (some 3) orgBeta (by decide)⟩

end TenantApp
